import Mathlib

/-!
Shallow embedding of the `unwrap` crate (`src/lib.rs`).

The crate provides two traits, `VerboseUnwrap` and `VerboseUnwrapErr`, whose
methods either return the wrapped value or panic with a formatted diagnostic
block.  We model a call's observable behaviour as an `UnwrapOutcome`: either
`returned v` (the value is returned, nothing is printed) or `panicked s`
(the call never returns; `s` is the exact panic/diagnostic text).

Rust details mapped into the embedding:
  * `Result<T, E>` is the inductive `Result T E` below; `Option` is Lean's.
  * The `Debug` bound on the payload is an explicit rendering function
    (`dT : T → String`, `dE : E → String`); the derived `Debug` output of a
    `Result` value (used by the `{:?}` interpolation on `Err::<(), E>(e)` and
    `Ok::<T, ()>(t)`) is `Result.debugFmt`.
  * `message: Option<Arguments>` carries an already rendered format string,
    as produced by `format_args!` in the `unwrap!` / `unwrap_err!` macros;
    `std::fmt::format` on it is the identity on that rendered string.
  * `u32` line/column numbers are `Nat`; the `{}` interpolation renders them
    in decimal, which is `toString`.
  * Each `panic!` format string is transcribed literally: the 80-character
    `!` delimiter rows, the 80-character headline rows, and the interleaved
    literal segments (`":"`, `","`, `" in "`, newlines) appear exactly as in
    the source.
-/

/-- Rust `Result<T, E>`. -/
inductive Result (T E : Type) where
  | ok (t : T)
  | err (e : E)
deriving DecidableEq

/-- The derived `Debug` rendering of a Rust `Result`, given `Debug`
renderings of the two payload types: `Ok(…)` / `Err(…)`. -/
def Result.debugFmt (dT : T → String) (dE : E → String) : Result T E → String
  | .ok t => "Ok(" ++ dT t ++ ")"
  | .err e => "Err(" ++ dE e ++ ")"

/-- Observable outcome of one call: the value is returned (no output is
produced), or the call panics, never returning, with diagnostic text. -/
inductive UnwrapOutcome (α : Type) where
  | returned (v : α)
  | panicked (diagnostic : String)
deriving DecidableEq

/-- `std::fmt::format` applied to `Arguments` that the `unwrap!` macro built
with `format_args!`: the message is already rendered, so this is the
identity on the rendered string. -/
def fmtFormat (args : String) : String := args

/-- The 80-character delimiter row used in every diagnostic block
(`src/lib.rs`, each `panic!` format string). -/
def bangRow : String :=
  "!!!!!!!!!!!!!!!!!!!!!!!!!!!!!!!!!!!!!!!!!!!!!!!!!!!!!!!!!!!!!!!!!!!!!!!!!!!!!!!!"

/-- Headline row of the `Result::Err` diagnostic (`src/lib.rs`). -/
def headlineResultErr : String :=
  "!   unwrap! called on Result::Err                                              !"

/-- Headline row of the `Option::None` diagnostic (`src/lib.rs`). -/
def headlineOptionNone : String :=
  "!   unwrap! called on Option::None                                             !"

/-- Headline row of the `Result::Ok` diagnostic (`src/lib.rs`). -/
def headlineResultOk : String :=
  "!   unwrap_err! called on Result::Ok                                           !"

/-- `<VerboseUnwrap for Result<T, E>>::verbose_unwrap` (`src/lib.rs`
lines 31–81).  `dE` is `E`'s `Debug` rendering. -/
def Result.verbose_unwrap (dE : E → String) (self : Result T E)
    (message : Option String) (module_path file : String)
    (line_number column : Nat) : UnwrapOutcome T :=
  match self with
  | .ok t => .returned t
  | .err e =>
    match message with
    | some args =>
      let msg := fmtFormat args
      .panicked ("\n\n" ++ bangRow ++ "\n" ++ headlineResultErr ++ "\n" ++ bangRow ++ "\n"
        ++ file ++ ":" ++ toString line_number ++ "," ++ toString column ++ " in "
        ++ module_path ++ "\n" ++ msg ++ "\n\n"
        ++ Result.debugFmt (fun _ => "()") dE (Result.err (T := Unit) e) ++ "\n\n")
    | none =>
      .panicked ("\n\n" ++ bangRow ++ "\n" ++ headlineResultErr ++ "\n" ++ bangRow ++ "\n"
        ++ file ++ ":" ++ toString line_number ++ "," ++ toString column ++ " in "
        ++ module_path ++ "\n\n"
        ++ Result.debugFmt (fun _ => "()") dE (Result.err (T := Unit) e) ++ "\n\n")

/-- `<VerboseUnwrap for Option<T>>::verbose_unwrap` (`src/lib.rs`
lines 83–115). -/
def Option.verbose_unwrap (self : Option T) (message : Option String)
    (module_path file : String) (line_number column : Nat) : UnwrapOutcome T :=
  match self with
  | some t => .returned t
  | none =>
    match message with
    | some args =>
      let msg := fmtFormat args
      .panicked ("\n\n" ++ bangRow ++ "\n" ++ headlineOptionNone ++ "\n" ++ bangRow ++ "\n"
        ++ file ++ ":" ++ toString line_number ++ "," ++ toString column ++ " in "
        ++ module_path ++ "\n" ++ msg ++ "\n\n")
    | none =>
      .panicked ("\n\n" ++ bangRow ++ "\n" ++ headlineOptionNone ++ "\n" ++ bangRow ++ "\n"
        ++ file ++ ":" ++ toString line_number ++ "," ++ toString column ++ " in "
        ++ module_path ++ "\n\n")

/-- `<VerboseUnwrapErr for Result<T, E>>::verbose_unwrap_err` (`src/lib.rs`
lines 176–212).  `dT` is `T`'s `Debug` rendering. -/
def Result.verbose_unwrap_err (dT : T → String) (self : Result T E)
    (message : Option String) (module_path file : String)
    (line_number column : Nat) : UnwrapOutcome E :=
  match self with
  | .err e => .returned e
  | .ok t =>
    match message with
    | some args =>
      let msg := fmtFormat args
      .panicked ("\n\n" ++ bangRow ++ "\n" ++ headlineResultOk ++ "\n" ++ bangRow ++ "\n"
        ++ file ++ ":" ++ toString line_number ++ "," ++ toString column ++ " in "
        ++ module_path ++ "\n" ++ msg ++ "\n\n"
        ++ Result.debugFmt dT (fun _ => "()") (Result.ok (E := Unit) t) ++ "\n\n")
    | none =>
      .panicked ("\n\n" ++ bangRow ++ "\n" ++ headlineResultOk ++ "\n" ++ bangRow ++ "\n"
        ++ file ++ ":" ++ toString line_number ++ "," ++ toString column ++ " in "
        ++ module_path ++ "\n\n"
        ++ Result.debugFmt dT (fun _ => "()") (Result.ok (E := Unit) t) ++ "\n\n")

/-- `pat` occurs as a contiguous substring of `s`. -/
def ContainsSub (s pat : String) : Prop := ∃ a b, s = a ++ (pat ++ b)

theorem ContainsSub.appL (a : String) : ContainsSub s pat → ContainsSub (a ++ s) pat
  | ⟨x, y, h⟩ => ⟨a ++ x, y, by rw [h, String.append_assoc]⟩

theorem ContainsSub.appR (b : String) : ContainsSub s pat → ContainsSub (s ++ b) pat
  | ⟨x, y, h⟩ => ⟨x, y ++ b, by rw [h, String.append_assoc, String.append_assoc]⟩

theorem containsSub_self (s : String) : ContainsSub s s :=
  ⟨"", "", by simp⟩

theorem newline_pair (c : String) : "\n" ++ ("\n" ++ c) = "\n\n" ++ c := by
  have h : ("\n" : String) ++ "\n" = "\n\n" := by decide
  rw [← String.append_assoc, h]

theorem headlineResultErr_tag : ContainsSub headlineResultErr "Result::Err" :=
  ⟨"!   unwrap! called on ", "                                              !", by decide⟩

theorem headlineOptionNone_tag : ContainsSub headlineOptionNone "Option::None" :=
  ⟨"!   unwrap! called on ", "                                             !", by decide⟩

theorem headlineResultOk_tag : ContainsSub headlineResultOk "Result::Ok" :=
  ⟨"!   unwrap_err! called on ", "                                           !", by decide⟩

/-- C1: for every `present(v)` Optional input and every `success(v)` Result
input, `verbose_unwrap` returns `v`, both with and without a message
argument, and the outcome carries no diagnostic output or other side
effect. -/
theorem unwrap_present_returns (T E : Type) (dE : E → String) (v : T)
    (message : Option String) (module_path file : String) (ln col : Nat) :
    Option.verbose_unwrap (some v) message module_path file ln col
        = UnwrapOutcome.returned v ∧
    Result.verbose_unwrap dE (Result.ok v) message module_path file ln col
        = UnwrapOutcome.returned v :=
  ⟨rfl, rfl⟩

/-- C2: for every absent Optional input, `verbose_unwrap` panics (never
returning a value) and the diagnostic text contains the literal substring
`Option::None` as well as the supplied file name, line number and column
number. -/
theorem unwrap_absent_panics_diagnostic (T : Type) (message : Option String)
    (module_path file : String) (ln col : Nat) :
    ∃ s, Option.verbose_unwrap (none : Option T) message module_path file ln col
        = UnwrapOutcome.panicked s ∧
      ContainsSub s "Option::None" ∧ ContainsSub s file ∧
      ContainsSub s (toString ln) ∧ ContainsSub s (toString col) := by
  cases message with
  | none =>
    refine ⟨"\n\n" ++ bangRow ++ "\n" ++ headlineOptionNone ++ "\n" ++ bangRow ++ "\n"
      ++ file ++ ":" ++ toString ln ++ "," ++ toString col ++ " in " ++ module_path
      ++ "\n\n", rfl, ?_, ?_, ?_, ?_⟩
    · exact headlineOptionNone_tag.appL ("\n\n" ++ bangRow ++ "\n") |>.appR "\n"
        |>.appR bangRow |>.appR "\n" |>.appR file |>.appR ":" |>.appR (toString ln)
        |>.appR "," |>.appR (toString col) |>.appR " in " |>.appR module_path |>.appR "\n\n"
    · exact containsSub_self file
        |>.appL ("\n\n" ++ bangRow ++ "\n" ++ headlineOptionNone ++ "\n" ++ bangRow ++ "\n")
        |>.appR ":" |>.appR (toString ln) |>.appR "," |>.appR (toString col)
        |>.appR " in " |>.appR module_path |>.appR "\n\n"
    · exact containsSub_self (toString ln)
        |>.appL ("\n\n" ++ bangRow ++ "\n" ++ headlineOptionNone ++ "\n" ++ bangRow ++ "\n"
          ++ file ++ ":")
        |>.appR "," |>.appR (toString col) |>.appR " in " |>.appR module_path |>.appR "\n\n"
    · exact containsSub_self (toString col)
        |>.appL ("\n\n" ++ bangRow ++ "\n" ++ headlineOptionNone ++ "\n" ++ bangRow ++ "\n"
          ++ file ++ ":" ++ toString ln ++ ",")
        |>.appR " in " |>.appR module_path |>.appR "\n\n"
  | some m =>
    refine ⟨"\n\n" ++ bangRow ++ "\n" ++ headlineOptionNone ++ "\n" ++ bangRow ++ "\n"
      ++ file ++ ":" ++ toString ln ++ "," ++ toString col ++ " in " ++ module_path
      ++ "\n" ++ m ++ "\n\n", rfl, ?_, ?_, ?_, ?_⟩
    · exact headlineOptionNone_tag.appL ("\n\n" ++ bangRow ++ "\n") |>.appR "\n"
        |>.appR bangRow |>.appR "\n" |>.appR file |>.appR ":" |>.appR (toString ln)
        |>.appR "," |>.appR (toString col) |>.appR " in " |>.appR module_path
        |>.appR "\n" |>.appR m |>.appR "\n\n"
    · exact containsSub_self file
        |>.appL ("\n\n" ++ bangRow ++ "\n" ++ headlineOptionNone ++ "\n" ++ bangRow ++ "\n")
        |>.appR ":" |>.appR (toString ln) |>.appR "," |>.appR (toString col)
        |>.appR " in " |>.appR module_path |>.appR "\n" |>.appR m |>.appR "\n\n"
    · exact containsSub_self (toString ln)
        |>.appL ("\n\n" ++ bangRow ++ "\n" ++ headlineOptionNone ++ "\n" ++ bangRow ++ "\n"
          ++ file ++ ":")
        |>.appR "," |>.appR (toString col) |>.appR " in " |>.appR module_path
        |>.appR "\n" |>.appR m |>.appR "\n\n"
    · exact containsSub_self (toString col)
        |>.appL ("\n\n" ++ bangRow ++ "\n" ++ headlineOptionNone ++ "\n" ++ bangRow ++ "\n"
          ++ file ++ ":" ++ toString ln ++ ",")
        |>.appR " in " |>.appR module_path |>.appR "\n" |>.appR m |>.appR "\n\n"

/-- C9: happy-path idempotence — unwrapping the same `present(v)` /
`success(v)` value twice returns the same value both times, and the
returned value does not depend on the message argument or the call-site
descriptor. -/
theorem happy_path_idempotent (T E : Type) (dE : E → String) (v : T)
    (m₁ m₂ : Option String) (mp₁ f₁ : String) (l₁ c₁ : Nat)
    (mp₂ f₂ : String) (l₂ c₂ : Nat) :
    (Option.verbose_unwrap (some v) m₁ mp₁ f₁ l₁ c₁ = UnwrapOutcome.returned v ∧
     Option.verbose_unwrap (some v) m₂ mp₂ f₂ l₂ c₂ = UnwrapOutcome.returned v) ∧
    (Result.verbose_unwrap dE (Result.ok v) m₁ mp₁ f₁ l₁ c₁ = UnwrapOutcome.returned v ∧
     Result.verbose_unwrap dE (Result.ok v) m₂ mp₂ f₂ l₂ c₂ = UnwrapOutcome.returned v) :=
  ⟨⟨rfl, rfl⟩, ⟨rfl, rfl⟩⟩

/-- C10: determinism — for any two calls with equal container value, equal
optional message, and equal `module_path`, `file`, `line_number` and
`column`, each of the three entry points produces identical outcomes
(same returned value, or character-for-character identical diagnostic
text). -/
theorem outcome_deterministic (T E : Type) (dT : T → String) (dE : E → String)
    (r₁ r₂ : Result T E) (o₁ o₂ : Option T) (m₁ m₂ : Option String)
    (mp₁ mp₂ f₁ f₂ : String) (l₁ l₂ c₁ c₂ : Nat)
    (hr : r₁ = r₂) (ho : o₁ = o₂) (hm : m₁ = m₂) (hmp : mp₁ = mp₂)
    (hf : f₁ = f₂) (hl : l₁ = l₂) (hc : c₁ = c₂) :
    Result.verbose_unwrap dE r₁ m₁ mp₁ f₁ l₁ c₁
        = Result.verbose_unwrap dE r₂ m₂ mp₂ f₂ l₂ c₂ ∧
    Option.verbose_unwrap o₁ m₁ mp₁ f₁ l₁ c₁
        = Option.verbose_unwrap o₂ m₂ mp₂ f₂ l₂ c₂ ∧
    Result.verbose_unwrap_err dT r₁ m₁ mp₁ f₁ l₁ c₁
        = Result.verbose_unwrap_err dT r₂ m₂ mp₂ f₂ l₂ c₂ := by
  subst hr; subst ho; subst hm; subst hmp; subst hf; subst hl; subst hc
  exact ⟨rfl, rfl, rfl⟩

/-- Witness for C10 at concrete inputs. -/
theorem outcome_deterministic_witness :
    Result.verbose_unwrap (fun n : Nat => toString n) (Result.err (T := Nat) 32)
        (some "a message") "mod" "lib.rs" 7 9
      = Result.verbose_unwrap (fun n : Nat => toString n) (Result.err (T := Nat) 32)
        (some "a message") "mod" "lib.rs" 7 9 ∧
    Option.verbose_unwrap (some 5) (some "a message") "mod" "lib.rs" 7 9
      = Option.verbose_unwrap (some 5) (some "a message") "mod" "lib.rs" 7 9 ∧
    Result.verbose_unwrap_err (fun n : Nat => toString n) (Result.err (T := Nat) 32)
        (some "a message") "mod" "lib.rs" 7 9
      = Result.verbose_unwrap_err (fun n : Nat => toString n) (Result.err (T := Nat) 32)
        (some "a message") "mod" "lib.rs" 7 9 :=
  outcome_deterministic Nat Nat (fun n => toString n) (fun n => toString n)
    (Result.err 32) (Result.err 32) (some 5) (some 5) (some "a message") (some "a message")
    "mod" "mod" "lib.rs" "lib.rs" 7 7 9 9 rfl rfl rfl rfl rfl rfl rfl

/-- C3: for every `failure(e)` Result input, `verbose_unwrap` panics (never
returning a value) and the diagnostic text contains the literal substring
`Result::Err` and a debug rendering of the wrapped container containing
`Err(` followed by the debug form of `e`. -/
theorem unwrap_failure_panics_diagnostic (T E : Type) (dE : E → String) (e : E)
    (message : Option String) (module_path file : String) (ln col : Nat) :
    ∃ s, Result.verbose_unwrap dE (Result.err (T := T) e) message module_path file ln col
        = UnwrapOutcome.panicked s ∧
      ContainsSub s "Result::Err" ∧ ContainsSub s ("Err(" ++ dE e) := by
  cases message with
  | none =>
    refine ⟨"\n\n" ++ bangRow ++ "\n" ++ headlineResultErr ++ "\n" ++ bangRow ++ "\n"
      ++ file ++ ":" ++ toString ln ++ "," ++ toString col ++ " in " ++ module_path
      ++ "\n\n" ++ ("Err(" ++ dE e ++ ")") ++ "\n\n", rfl, ?_, ?_⟩
    · exact headlineResultErr_tag.appL ("\n\n" ++ bangRow ++ "\n") |>.appR "\n"
        |>.appR bangRow |>.appR "\n" |>.appR file |>.appR ":" |>.appR (toString ln)
        |>.appR "," |>.appR (toString col) |>.appR " in " |>.appR module_path
        |>.appR "\n\n" |>.appR ("Err(" ++ dE e ++ ")") |>.appR "\n\n"
    · exact containsSub_self ("Err(" ++ dE e) |>.appR ")"
        |>.appL ("\n\n" ++ bangRow ++ "\n" ++ headlineResultErr ++ "\n" ++ bangRow ++ "\n"
          ++ file ++ ":" ++ toString ln ++ "," ++ toString col ++ " in " ++ module_path
          ++ "\n\n")
        |>.appR "\n\n"
  | some m =>
    refine ⟨"\n\n" ++ bangRow ++ "\n" ++ headlineResultErr ++ "\n" ++ bangRow ++ "\n"
      ++ file ++ ":" ++ toString ln ++ "," ++ toString col ++ " in " ++ module_path
      ++ "\n" ++ m ++ "\n\n" ++ ("Err(" ++ dE e ++ ")") ++ "\n\n", rfl, ?_, ?_⟩
    · exact headlineResultErr_tag.appL ("\n\n" ++ bangRow ++ "\n") |>.appR "\n"
        |>.appR bangRow |>.appR "\n" |>.appR file |>.appR ":" |>.appR (toString ln)
        |>.appR "," |>.appR (toString col) |>.appR " in " |>.appR module_path
        |>.appR "\n" |>.appR m |>.appR "\n\n" |>.appR ("Err(" ++ dE e ++ ")") |>.appR "\n\n"
    · exact containsSub_self ("Err(" ++ dE e) |>.appR ")"
        |>.appL ("\n\n" ++ bangRow ++ "\n" ++ headlineResultErr ++ "\n" ++ bangRow ++ "\n"
          ++ file ++ ":" ++ toString ln ++ "," ++ toString col ++ " in " ++ module_path
          ++ "\n" ++ m ++ "\n\n")
        |>.appR "\n\n"

/-- C4: `verbose_unwrap_err` returns the error payload exactly on
`failure(e)` inputs (with no side effects), and on `success(v)` inputs it
panics (never returning) with a diagnostic containing `Result::Ok` and the
debug rendering `Ok(<debug of v>)`. -/
theorem unwrap_err_behaviour (T E : Type) (dT : T → String) (e : E) (v : T)
    (message : Option String) (module_path file : String) (ln col : Nat) :
    Result.verbose_unwrap_err dT (Result.err (T := T) e) message module_path file ln col
        = UnwrapOutcome.returned e ∧
    (∃ s, Result.verbose_unwrap_err (E := E) dT (Result.ok v) message module_path file ln col
        = UnwrapOutcome.panicked s ∧
      ContainsSub s "Result::Ok" ∧ ContainsSub s ("Ok(" ++ dT v ++ ")")) := by
  refine ⟨rfl, ?_⟩
  cases message with
  | none =>
    refine ⟨"\n\n" ++ bangRow ++ "\n" ++ headlineResultOk ++ "\n" ++ bangRow ++ "\n"
      ++ file ++ ":" ++ toString ln ++ "," ++ toString col ++ " in " ++ module_path
      ++ "\n\n" ++ ("Ok(" ++ dT v ++ ")") ++ "\n\n", rfl, ?_, ?_⟩
    · exact headlineResultOk_tag.appL ("\n\n" ++ bangRow ++ "\n") |>.appR "\n"
        |>.appR bangRow |>.appR "\n" |>.appR file |>.appR ":" |>.appR (toString ln)
        |>.appR "," |>.appR (toString col) |>.appR " in " |>.appR module_path
        |>.appR "\n\n" |>.appR ("Ok(" ++ dT v ++ ")") |>.appR "\n\n"
    · exact containsSub_self ("Ok(" ++ dT v ++ ")")
        |>.appL ("\n\n" ++ bangRow ++ "\n" ++ headlineResultOk ++ "\n" ++ bangRow ++ "\n"
          ++ file ++ ":" ++ toString ln ++ "," ++ toString col ++ " in " ++ module_path
          ++ "\n\n")
        |>.appR "\n\n"
  | some m =>
    refine ⟨"\n\n" ++ bangRow ++ "\n" ++ headlineResultOk ++ "\n" ++ bangRow ++ "\n"
      ++ file ++ ":" ++ toString ln ++ "," ++ toString col ++ " in " ++ module_path
      ++ "\n" ++ m ++ "\n\n" ++ ("Ok(" ++ dT v ++ ")") ++ "\n\n", rfl, ?_, ?_⟩
    · exact headlineResultOk_tag.appL ("\n\n" ++ bangRow ++ "\n") |>.appR "\n"
        |>.appR bangRow |>.appR "\n" |>.appR file |>.appR ":" |>.appR (toString ln)
        |>.appR "," |>.appR (toString col) |>.appR " in " |>.appR module_path
        |>.appR "\n" |>.appR m |>.appR "\n\n" |>.appR ("Ok(" ++ dT v ++ ")") |>.appR "\n\n"
    · exact containsSub_self ("Ok(" ++ dT v ++ ")")
        |>.appL ("\n\n" ++ bangRow ++ "\n" ++ headlineResultOk ++ "\n" ++ bangRow ++ "\n"
          ++ file ++ ":" ++ toString ln ++ "," ++ toString col ++ " in " ++ module_path
          ++ "\n" ++ m ++ "\n\n")
        |>.appR "\n\n"

/-- C5 counterexample: the claim says the banner delimiter lines consist of
asterisk characters, but at a concrete failing input the emitted
diagnostic text contains no asterisk at all (the delimiter rows are made
of exclamation marks). -/
theorem banner_asterisk_counterexample :
    ∃ s, Option.verbose_unwrap (none : Option Nat) none "mod" "lib.rs" 1 2
        = UnwrapOutcome.panicked s ∧ s.data.contains '*' = false :=
  ⟨_, rfl, by decide⟩

/-- C5 (amended): in every emitted diagnostic block the banner is a
delimiter row of 80 exclamation marks, then a headline of the form
`!   <operation-name> called on <variant-name>` padded with spaces and
closed with `!`, then a second such delimiter row, where the operation
name is `unwrap!` for the success path and `unwrap_err!` for the error
path, and the variant name is `Result::Err` / `Option::None` for the
success path and `Result::Ok` for the error path. -/
theorem banner_bang_shape (T E : Type) (dT : T → String) (dE : E → String)
    (t : T) (e : E) (message : Option String) (module_path file : String) (ln col : Nat) :
    bangRow = String.mk (List.replicate 80 '!') ∧
    headlineOptionNone
        = "!   " ++ "unwrap!" ++ " called on " ++ "Option::None"
          ++ String.mk (List.replicate 45 ' ') ++ "!" ∧
    headlineResultErr
        = "!   " ++ "unwrap!" ++ " called on " ++ "Result::Err"
          ++ String.mk (List.replicate 46 ' ') ++ "!" ∧
    headlineResultOk
        = "!   " ++ "unwrap_err!" ++ " called on " ++ "Result::Ok"
          ++ String.mk (List.replicate 43 ' ') ++ "!" ∧
    (∃ rest, Option.verbose_unwrap (none : Option T) message module_path file ln col
        = UnwrapOutcome.panicked ("\n\n" ++ bangRow ++ "\n" ++ headlineOptionNone ++ "\n"
          ++ bangRow ++ "\n" ++ rest)) ∧
    (∃ rest, Result.verbose_unwrap dE (Result.err (T := T) e) message module_path file ln col
        = UnwrapOutcome.panicked ("\n\n" ++ bangRow ++ "\n" ++ headlineResultErr ++ "\n"
          ++ bangRow ++ "\n" ++ rest)) ∧
    (∃ rest, Result.verbose_unwrap_err (E := E) dT (Result.ok t) message module_path file ln col
        = UnwrapOutcome.panicked ("\n\n" ++ bangRow ++ "\n" ++ headlineResultOk ++ "\n"
          ++ bangRow ++ "\n" ++ rest)) := by
  refine ⟨by decide, by decide, by decide, by decide, ?_, ?_, ?_⟩
  · cases message with
    | none =>
      exact ⟨file ++ ":" ++ toString ln ++ "," ++ toString col ++ " in " ++ module_path
        ++ "\n\n", by simp [Option.verbose_unwrap, String.append_assoc]⟩
    | some m =>
      exact ⟨file ++ ":" ++ toString ln ++ "," ++ toString col ++ " in " ++ module_path
        ++ "\n" ++ m ++ "\n\n", by simp [Option.verbose_unwrap, fmtFormat, String.append_assoc]⟩
  · cases message with
    | none =>
      exact ⟨file ++ ":" ++ toString ln ++ "," ++ toString col ++ " in " ++ module_path
        ++ "\n\n" ++ ("Err(" ++ dE e ++ ")") ++ "\n\n",
        by simp [Result.verbose_unwrap, Result.debugFmt, String.append_assoc, newline_pair]⟩
    | some m =>
      exact ⟨file ++ ":" ++ toString ln ++ "," ++ toString col ++ " in " ++ module_path
        ++ "\n" ++ m ++ "\n\n" ++ ("Err(" ++ dE e ++ ")") ++ "\n\n",
        by simp [Result.verbose_unwrap, Result.debugFmt, fmtFormat, String.append_assoc]⟩
  · cases message with
    | none =>
      exact ⟨file ++ ":" ++ toString ln ++ "," ++ toString col ++ " in " ++ module_path
        ++ "\n\n" ++ ("Ok(" ++ dT t ++ ")") ++ "\n\n",
        by simp [Result.verbose_unwrap_err, Result.debugFmt, String.append_assoc, newline_pair]⟩
    | some m =>
      exact ⟨file ++ ":" ++ toString ln ++ "," ++ toString col ++ " in " ++ module_path
        ++ "\n" ++ m ++ "\n\n" ++ ("Ok(" ++ dT t ++ ")") ++ "\n\n",
        by simp [Result.verbose_unwrap_err, Result.debugFmt, fmtFormat, String.append_assoc]⟩

/-- C6: in every emitted diagnostic block (all entry points, with or
without a message), the line immediately after the banner is the supplied
call-site descriptor rendered as `<file>:<line>,<column> in <scope-path>`. -/
theorem location_line_after_banner (T E : Type) (dT : T → String) (dE : E → String)
    (t : T) (e : E) (message : Option String) (module_path file : String) (ln col : Nat) :
    (∃ rest, Option.verbose_unwrap (none : Option T) message module_path file ln col
        = UnwrapOutcome.panicked ("\n\n" ++ bangRow ++ "\n" ++ headlineOptionNone ++ "\n"
          ++ bangRow ++ "\n"
          ++ (file ++ ":" ++ toString ln ++ "," ++ toString col ++ " in " ++ module_path)
          ++ "\n" ++ rest)) ∧
    (∃ rest, Result.verbose_unwrap dE (Result.err (T := T) e) message module_path file ln col
        = UnwrapOutcome.panicked ("\n\n" ++ bangRow ++ "\n" ++ headlineResultErr ++ "\n"
          ++ bangRow ++ "\n"
          ++ (file ++ ":" ++ toString ln ++ "," ++ toString col ++ " in " ++ module_path)
          ++ "\n" ++ rest)) ∧
    (∃ rest, Result.verbose_unwrap_err (E := E) dT (Result.ok t) message module_path file ln col
        = UnwrapOutcome.panicked ("\n\n" ++ bangRow ++ "\n" ++ headlineResultOk ++ "\n"
          ++ bangRow ++ "\n"
          ++ (file ++ ":" ++ toString ln ++ "," ++ toString col ++ " in " ++ module_path)
          ++ "\n" ++ rest)) := by
  refine ⟨?_, ?_, ?_⟩
  · cases message with
    | none =>
      exact ⟨"\n", by simp [Option.verbose_unwrap, String.append_assoc]⟩
    | some m =>
      exact ⟨m ++ "\n\n", by simp [Option.verbose_unwrap, fmtFormat, String.append_assoc]⟩
  · cases message with
    | none =>
      exact ⟨"\n" ++ ("Err(" ++ dE e ++ ")") ++ "\n\n",
        by simp [Result.verbose_unwrap, Result.debugFmt, String.append_assoc, newline_pair]⟩
    | some m =>
      exact ⟨m ++ "\n\n" ++ ("Err(" ++ dE e ++ ")") ++ "\n\n",
        by simp [Result.verbose_unwrap, Result.debugFmt, fmtFormat, String.append_assoc]⟩
  · cases message with
    | none =>
      exact ⟨"\n" ++ ("Ok(" ++ dT t ++ ")") ++ "\n\n",
        by simp [Result.verbose_unwrap_err, Result.debugFmt, String.append_assoc, newline_pair]⟩
    | some m =>
      exact ⟨m ++ "\n\n" ++ ("Ok(" ++ dT t ++ ")") ++ "\n\n",
        by simp [Result.verbose_unwrap_err, Result.debugFmt, fmtFormat, String.append_assoc]⟩

/-- C7: in every failing call the supplied message appears verbatim on its
own line immediately below the location line; when no message is supplied
there is no message line and the location line is followed directly by
the blank line. -/
theorem message_line_placement (T E : Type) (dT : T → String) (dE : E → String)
    (t : T) (e : E) (m : String) (module_path file : String) (ln col : Nat) :
    (Option.verbose_unwrap (none : Option T) (some m) module_path file ln col
        = UnwrapOutcome.panicked ("\n\n" ++ bangRow ++ "\n" ++ headlineOptionNone ++ "\n"
          ++ bangRow ++ "\n"
          ++ (file ++ ":" ++ toString ln ++ "," ++ toString col ++ " in " ++ module_path)
          ++ "\n" ++ m ++ "\n" ++ ("\n" ++ ""))) ∧
    (Option.verbose_unwrap (none : Option T) none module_path file ln col
        = UnwrapOutcome.panicked ("\n\n" ++ bangRow ++ "\n" ++ headlineOptionNone ++ "\n"
          ++ bangRow ++ "\n"
          ++ (file ++ ":" ++ toString ln ++ "," ++ toString col ++ " in " ++ module_path)
          ++ "\n" ++ ("\n" ++ ""))) ∧
    (Result.verbose_unwrap dE (Result.err (T := T) e) (some m) module_path file ln col
        = UnwrapOutcome.panicked ("\n\n" ++ bangRow ++ "\n" ++ headlineResultErr ++ "\n"
          ++ bangRow ++ "\n"
          ++ (file ++ ":" ++ toString ln ++ "," ++ toString col ++ " in " ++ module_path)
          ++ "\n" ++ m ++ "\n" ++ ("\n" ++ (("Err(" ++ dE e ++ ")") ++ "\n\n")))) ∧
    (Result.verbose_unwrap dE (Result.err (T := T) e) none module_path file ln col
        = UnwrapOutcome.panicked ("\n\n" ++ bangRow ++ "\n" ++ headlineResultErr ++ "\n"
          ++ bangRow ++ "\n"
          ++ (file ++ ":" ++ toString ln ++ "," ++ toString col ++ " in " ++ module_path)
          ++ "\n" ++ ("\n" ++ (("Err(" ++ dE e ++ ")") ++ "\n\n")))) ∧
    (Result.verbose_unwrap_err (E := E) dT (Result.ok t) (some m) module_path file ln col
        = UnwrapOutcome.panicked ("\n\n" ++ bangRow ++ "\n" ++ headlineResultOk ++ "\n"
          ++ bangRow ++ "\n"
          ++ (file ++ ":" ++ toString ln ++ "," ++ toString col ++ " in " ++ module_path)
          ++ "\n" ++ m ++ "\n" ++ ("\n" ++ (("Ok(" ++ dT t ++ ")") ++ "\n\n")))) ∧
    (Result.verbose_unwrap_err (E := E) dT (Result.ok t) none module_path file ln col
        = UnwrapOutcome.panicked ("\n\n" ++ bangRow ++ "\n" ++ headlineResultOk ++ "\n"
          ++ bangRow ++ "\n"
          ++ (file ++ ":" ++ toString ln ++ "," ++ toString col ++ " in " ++ module_path)
          ++ "\n" ++ ("\n" ++ (("Ok(" ++ dT t ++ ")") ++ "\n\n")))) := by
  refine ⟨?_, ?_, ?_, ?_, ?_, ?_⟩ <;>
    simp [Option.verbose_unwrap, Result.verbose_unwrap, Result.verbose_unwrap_err,
      Result.debugFmt, fmtFormat, String.append_assoc, newline_pair]

/-- C8: the diagnostic block contains a debug rendering of the failing
container if and only if the container is Result-shaped — every Result
failure block includes the debug-printed wrapped container, and the
Optional (`None`) failure blocks are exactly the banner, location and
optional message lines with no debug-rendering section at all. -/
theorem debug_section_iff_result (T E : Type) (dT : T → String) (dE : E → String)
    (t : T) (e : E) (m : String) (module_path file : String) (ln col : Nat) :
    (∀ message : Option String,
      ∃ s, Result.verbose_unwrap dE (Result.err (T := T) e) message module_path file ln col
          = UnwrapOutcome.panicked s ∧
        ContainsSub s (Result.debugFmt (fun _ => "()") dE (Result.err (T := Unit) e))) ∧
    (∀ message : Option String,
      ∃ s, Result.verbose_unwrap_err (E := E) dT (Result.ok t) message module_path file ln col
          = UnwrapOutcome.panicked s ∧
        ContainsSub s (Result.debugFmt dT (fun _ => "()") (Result.ok (E := Unit) t))) ∧
    (Option.verbose_unwrap (none : Option T) (some m) module_path file ln col
        = UnwrapOutcome.panicked ("\n\n" ++ bangRow ++ "\n" ++ headlineOptionNone ++ "\n"
          ++ bangRow ++ "\n" ++ file ++ ":" ++ toString ln ++ "," ++ toString col
          ++ " in " ++ module_path ++ "\n" ++ m ++ "\n\n")) ∧
    (Option.verbose_unwrap (none : Option T) none module_path file ln col
        = UnwrapOutcome.panicked ("\n\n" ++ bangRow ++ "\n" ++ headlineOptionNone ++ "\n"
          ++ bangRow ++ "\n" ++ file ++ ":" ++ toString ln ++ "," ++ toString col
          ++ " in " ++ module_path ++ "\n\n")) := by
  refine ⟨?_, ?_, rfl, rfl⟩
  · intro message
    cases message with
    | none =>
      refine ⟨"\n\n" ++ bangRow ++ "\n" ++ headlineResultErr ++ "\n" ++ bangRow ++ "\n"
        ++ file ++ ":" ++ toString ln ++ "," ++ toString col ++ " in " ++ module_path
        ++ "\n\n" ++ Result.debugFmt (fun _ => "()") dE (Result.err (T := Unit) e)
        ++ "\n\n", rfl, ?_⟩
      exact containsSub_self (Result.debugFmt (fun _ => "()") dE (Result.err (T := Unit) e))
        |>.appL ("\n\n" ++ bangRow ++ "\n" ++ headlineResultErr ++ "\n" ++ bangRow ++ "\n"
          ++ file ++ ":" ++ toString ln ++ "," ++ toString col ++ " in " ++ module_path
          ++ "\n\n")
        |>.appR "\n\n"
    | some w =>
      refine ⟨"\n\n" ++ bangRow ++ "\n" ++ headlineResultErr ++ "\n" ++ bangRow ++ "\n"
        ++ file ++ ":" ++ toString ln ++ "," ++ toString col ++ " in " ++ module_path
        ++ "\n" ++ w ++ "\n\n" ++ Result.debugFmt (fun _ => "()") dE (Result.err (T := Unit) e)
        ++ "\n\n", rfl, ?_⟩
      exact containsSub_self (Result.debugFmt (fun _ => "()") dE (Result.err (T := Unit) e))
        |>.appL ("\n\n" ++ bangRow ++ "\n" ++ headlineResultErr ++ "\n" ++ bangRow ++ "\n"
          ++ file ++ ":" ++ toString ln ++ "," ++ toString col ++ " in " ++ module_path
          ++ "\n" ++ w ++ "\n\n")
        |>.appR "\n\n"
  · intro message
    cases message with
    | none =>
      refine ⟨"\n\n" ++ bangRow ++ "\n" ++ headlineResultOk ++ "\n" ++ bangRow ++ "\n"
        ++ file ++ ":" ++ toString ln ++ "," ++ toString col ++ " in " ++ module_path
        ++ "\n\n" ++ Result.debugFmt dT (fun _ => "()") (Result.ok (E := Unit) t)
        ++ "\n\n", rfl, ?_⟩
      exact containsSub_self (Result.debugFmt dT (fun _ => "()") (Result.ok (E := Unit) t))
        |>.appL ("\n\n" ++ bangRow ++ "\n" ++ headlineResultOk ++ "\n" ++ bangRow ++ "\n"
          ++ file ++ ":" ++ toString ln ++ "," ++ toString col ++ " in " ++ module_path
          ++ "\n\n")
        |>.appR "\n\n"
    | some w =>
      refine ⟨"\n\n" ++ bangRow ++ "\n" ++ headlineResultOk ++ "\n" ++ bangRow ++ "\n"
        ++ file ++ ":" ++ toString ln ++ "," ++ toString col ++ " in " ++ module_path
        ++ "\n" ++ w ++ "\n\n" ++ Result.debugFmt dT (fun _ => "()") (Result.ok (E := Unit) t)
        ++ "\n\n", rfl, ?_⟩
      exact containsSub_self (Result.debugFmt dT (fun _ => "()") (Result.ok (E := Unit) t))
        |>.appL ("\n\n" ++ bangRow ++ "\n" ++ headlineResultOk ++ "\n" ++ bangRow ++ "\n"
          ++ file ++ ":" ++ toString ln ++ "," ++ toString col ++ " in " ++ module_path
          ++ "\n" ++ w ++ "\n\n")
        |>.appR "\n\n"
